import Mathlib

/-
Verification model of the Chat Session Client (ChatWsManager) of the
russell-frontend repository, translated from src/src/utils/ChatWsManager.ts.

The class owns one WebSocket connection for one chat turn.  Its observable
behaviour is the sequence of callback invocations and outbound frames it
produces while consuming inbound transport events.  We embed it as a state
machine: the mutable instance fields become a SessionState record, every
callback invocation and every outbound send becomes an Action in a trace,
and the private methods become pure functions from state to state-plus-trace.

JavaScript values that may be undefined are modelled as Option; JS
truthiness on strings (undefined and the empty string are falsy) and the
string-coercing + operator are modelled by the js* helpers below.
-/

namespace ChatWs

/-- WebSocket readyState values: CONNECTING, OPEN, CLOSING, CLOSED. -/
inductive WsState
  | connecting
  | opened
  | closing
  | closed
deriving DecidableEq

/-- A parsed inbound JSON frame.  Fields mirror the properties the dispatch
code reads from the message object; absent properties are none.  isArray
models Array.isArray for the bare array-of-sources legacy form. -/
structure Frame where
  type : Option String := none
  chat_id : Option String := none
  message_id : Option String := none
  voice_enabled : Option Bool := none
  image_enabled : Option Bool := none
  full_response : Option String := none
  content : Option String := none
  audio : Option String := none
  format : Option String := none
  error : Option String := none
  prompt : Option String := none
  message : Option String := none
  image_url : Option String := none
  sources : Option (List String) := none
  isArray : Bool := false
  a : Option String := none
deriving DecidableEq

/-- One callback invocation, with the arguments the source passes at the
corresponding call site.  Arguments forwarded raw from a frame keep their
Option type (they may be undefined in JS); arguments the source defaults
with a || fallback are already definite. -/
inductive CbEvent
  | setSources (sources : List String)
  | setAnswer (answer : Option String)
  | onError (reason : Option String)
  | onConnect
  | onAuthenticated
  | onChatStart (chatId messageId : Option String) (voiceEnabled imageEnabled : Bool)
  | onTextComplete (chatId fullResponse : Option String)
  | onVoiceStart (chatId : Option String)
  | onVoiceChunk (chatId audioData : Option String) (format : String)
  | onVoiceComplete (chatId : Option String)
  | onChatComplete (chatId : Option String) (messageId : String)
      (fullResponse : Option String) (voiceEnabled imageEnabled : Bool)
  | onImageStart (chatId : Option String) (prompt : String)
  | onImageProgress (chatId : Option String) (message : String)
  | onImageComplete (chatId imageUrl : Option String)
  | onImageError (chatId : Option String) (error : String)
deriving DecidableEq

/-- An outbound frame written to the socket by the client. -/
inductive SendAction
  | auth (token : String)
  | chat (message : String) (enable_voice enable_image : Bool) (chat_id : Option String)
deriving DecidableEq

/-- One observable action of the client: a callback invocation, an outbound
send, or a graceful transport close (the ws.close call with its arguments). -/
inductive Action
  | cb (e : CbEvent)
  | send (m : SendAction)
  | closeTransport (code : Nat) (reason : String)
deriving DecidableEq

/-- The mutable instance fields of ChatWsManager, plus the idle-timer state:
timerArmed is whether a setTimeout handle is pending, lastArm the time it
was last armed (construction or the latest _resetTimeout). -/
structure SessionState where
  answer : Option String
  isAuthenticated : Bool
  currentChatId : Option String
  voiceEnabled : Bool
  timerArmed : Bool
  lastArm : Nat
  wsState : WsState
deriving DecidableEq

/-- The constructor options (ChatWsManagerOptions).  Optional fields are
Option; the constructor merges defaults timeout=30000, enableVoice=false,
enableImage=false under the caller-supplied values. -/
structure ChatWsManagerOptions where
  ssl : Bool := true
  apiHost : String := ""
  question : String
  chatId : Option String := none
  authToken : String
  timeout : Option Nat := none
  enableVoice : Option Bool := none
  enableImage : Option Bool := none
deriving DecidableEq

/-- Effective idle-timeout duration after the constructor's default merge. -/
def effTimeout (opts : ChatWsManagerOptions) : Nat :=
  opts.timeout.getD 30000

/-- JS truthiness of a possibly-undefined string: undefined and the empty
string are falsy. -/
def jsTruthyStr (o : Option String) : Bool :=
  match o with
  | some s => if s = "" then false else true
  | none => false

/-- JS expression o || d on a possibly-undefined string. -/
def jsOrStr (o : Option String) (d : String) : String :=
  match o with
  | some s => if s = "" then d else s
  | none => d

/-- JS string coercion of a possibly-undefined string, as the + operator
applies it (undefined coerces to the text undefined). -/
def jsStr (o : Option String) : String :=
  match o with
  | some s => s
  | none => "undefined"

/-- The generated fallback message id, msg-${Date.now()}. -/
def genMsgId (now : Nat) : String := "msg-" ++ toString now

/-- The chat request payload _sendQuestionMessage builds: question text, the
||-defaulted voice/image flags, and chat_id only when options.chatId is
truthy (the TS spread ...(chatId && left brace chat_id right brace)). -/
def sendChatPayload (opts : ChatWsManagerOptions) : SendAction :=
  SendAction.chat opts.question (opts.enableVoice.getD false) (opts.enableImage.getD false)
    (match opts.chatId with
     | some c => if c = "" then none else some c
     | none => none)

/-- ChatWsManager._handleError: invoke onError with the reason, then
_clearTimeout. -/
def handleError (s : SessionState) (reason : Option String) : SessionState × List Action :=
  ({ s with timerArmed := false }, [Action.cb (CbEvent.onError reason)])

/-- Which branch of the _handleMessage if-chain a frame falls into.  The
type checks are mutually exclusive string comparisons; a frame matching
none of them falls through to the legacy bare-error, bare-array,
sources-property and a-property checks, in source order. -/
inductive FrameKind
  | authSuccess
  | chatStart
  | textComplete
  | voiceStart
  | voiceChunk
  | voiceComplete
  | chatComplete
  | imageStart
  | imageProgress
  | imageComplete
  | imageError
  | streamStart
  | chunk
  | complete
  | chatChunk
  | errorType
  | bareError
  | bareArray
  | sourcesProp
  | aProp
  | unhandled
deriving DecidableEq

/-- Classify a frame exactly as the _handleMessage if-chain does. -/
def frameKind (f : Frame) : FrameKind :=
  match f.type with
  | some "auth_success" => FrameKind.authSuccess
  | some "chat_start" => FrameKind.chatStart
  | some "text_complete" => FrameKind.textComplete
  | some "voice_start" => FrameKind.voiceStart
  | some "voice_chunk" => FrameKind.voiceChunk
  | some "voice_complete" => FrameKind.voiceComplete
  | some "chat_complete" => FrameKind.chatComplete
  | some "image_start" => FrameKind.imageStart
  | some "image_progress" => FrameKind.imageProgress
  | some "image_complete" => FrameKind.imageComplete
  | some "image_error" => FrameKind.imageError
  | some "stream_start" => FrameKind.streamStart
  | some "chunk" => FrameKind.chunk
  | some "complete" => FrameKind.complete
  | some "chat_chunk" => FrameKind.chatChunk
  | some "error" => FrameKind.errorType
  | _ =>
      if jsTruthyStr f.error then FrameKind.bareError
      else if f.isArray then FrameKind.bareArray
      else match f.sources with
        | some _ => FrameKind.sourcesProp
        | none => if jsTruthyStr f.a then FrameKind.aProp else FrameKind.unhandled

/-- ChatWsManager._handleMessage, translated branch by branch.  It first
calls _resetTimeout (re-arming the idle timer at the current time), then
dispatches; each branch produces the state updates and the callback and
send invocations of the corresponding source branch, in order.  The
setTimeout-deferred close() after a completion (1000 ms later) is a
separate later NetEvent.callClose, not part of this handler. -/
def handleMessage (opts : ChatWsManagerOptions) (now : Nat) (s0 : SessionState)
    (f : Frame) : SessionState × List Action :=
  let s := { s0 with timerArmed := true, lastArm := now }
  match frameKind f with
  | FrameKind.authSuccess =>
      ({ s with isAuthenticated := true },
       [Action.cb CbEvent.onAuthenticated, Action.send (sendChatPayload opts)])
  | FrameKind.chatStart =>
      let ve := f.voice_enabled.getD false
      ({ s with currentChatId := f.chat_id, voiceEnabled := ve, answer := some "" },
       [Action.cb (CbEvent.onChatStart f.chat_id f.message_id ve (f.image_enabled.getD false))])
  | FrameKind.textComplete =>
      ({ s with answer := f.full_response },
       [Action.cb (CbEvent.setAnswer f.full_response),
        Action.cb (CbEvent.onTextComplete f.chat_id f.full_response)])
  | FrameKind.voiceStart =>
      (s, [Action.cb (CbEvent.onVoiceStart f.chat_id)])
  | FrameKind.voiceChunk =>
      (s, [Action.cb (CbEvent.onVoiceChunk f.chat_id f.audio (jsOrStr f.format "mp3"))])
  | FrameKind.voiceComplete =>
      let pre : List Action :=
        match f.audio with
        | some audioStr =>
            if 0 < audioStr.length then
              [Action.cb (CbEvent.onVoiceChunk f.chat_id f.audio (jsOrStr f.format "mp3"))]
            else []
        | none => []
      (s, pre ++ [Action.cb (CbEvent.onVoiceComplete f.chat_id)])
  | FrameKind.chatComplete =>
      ({ s with timerArmed := false },
       [Action.cb (CbEvent.onChatComplete f.chat_id (jsOrStr f.message_id (genMsgId now))
          s.answer (f.voice_enabled.getD false) (f.image_enabled.getD false))])
  | FrameKind.imageStart =>
      (s, [Action.cb (CbEvent.onImageStart f.chat_id (jsOrStr f.prompt ""))])
  | FrameKind.imageProgress =>
      (s, [Action.cb (CbEvent.onImageProgress f.chat_id (jsOrStr f.message "Generating image..."))])
  | FrameKind.imageComplete =>
      (s, [Action.cb (CbEvent.onImageComplete f.chat_id f.image_url)])
  | FrameKind.imageError =>
      (s, [Action.cb (CbEvent.onImageError f.chat_id (jsOrStr f.error "Failed to generate image"))])
  | FrameKind.streamStart =>
      let chatId := jsOrStr f.chat_id (jsOrStr s.currentChatId "unknown")
      ({ s with currentChatId := some chatId },
       [Action.cb (CbEvent.onChatStart (some chatId)
          (some (jsOrStr f.message_id (genMsgId now))) false false)])
  | FrameKind.chunk =>
      let newAnswer := jsStr s.answer ++ jsStr f.content
      ({ s with answer := some newAnswer },
       [Action.cb (CbEvent.setAnswer (some newAnswer))])
  | FrameKind.complete =>
      let overwrite := jsTruthyStr f.full_response
      let s1 := { s with timerArmed := false }
      let s2 := if overwrite then { s1 with answer := f.full_response } else s1
      let acts1 : List Action :=
        if overwrite then [Action.cb (CbEvent.setAnswer f.full_response)] else []
      let chatId := jsOrStr f.chat_id (jsOrStr s.currentChatId "unknown")
      (s2, acts1 ++ [Action.cb (CbEvent.onChatComplete (some chatId)
             (jsOrStr f.message_id (genMsgId now)) f.full_response false false)])
  | FrameKind.chatChunk =>
      let newAnswer := jsStr s.answer ++ jsStr f.content
      ({ s with answer := some newAnswer },
       [Action.cb (CbEvent.setAnswer (some newAnswer))])
  | FrameKind.errorType => handleError s f.error
  | FrameKind.bareError => handleError s f.error
  | FrameKind.bareArray => (s, [Action.cb (CbEvent.setSources (f.sources.getD []))])
  | FrameKind.sourcesProp => (s, [Action.cb (CbEvent.setSources (f.sources.getD []))])
  | FrameKind.aProp =>
      let newAnswer := jsStr s.answer ++ jsStr f.a
      ({ s with answer := some newAnswer },
       [Action.cb (CbEvent.setAnswer (some newAnswer))])
  | FrameKind.unhandled => (s, [])

/-- ChatWsManager.close: cancel the idle timer, then issue a graceful
transport close only when the socket is OPEN or CONNECTING. -/
def closeFn (s : SessionState) : SessionState × List Action :=
  let s1 := { s with timerArmed := false }
  if s1.wsState = WsState.opened ∨ s1.wsState = WsState.connecting then
    ({ s1 with wsState := WsState.closing }, [Action.closeTransport 1000 "Manual close"])
  else (s1, [])

/-- The diagnostic reason string built in the onmessage JSON-parse catch
handler; err stands for the stringified exception. -/
def invalidJsonReason (err data : String) : String :=
  "Invalid JSON received from WebSocket: " ++ err ++ " for message: " ++ data

/-- One transport-level occurrence delivered to the bound event handlers:
socket open, a parseable inbound frame (with its arrival time), an
unparsable inbound payload, a socket error, the socket close notification,
a caller close() call, or the pending idle timer firing. -/
inductive NetEvent
  | opened
  | msg (now : Nat) (f : Frame)
  | raw (now : Nat) (err data : String)
  | errored
  | closedEv
  | callClose
  | timerFire
deriving DecidableEq

/-- The handler bound to each transport event in _bindEvents, plus close()
and the idle-timeout handler (which simply calls close()). -/
def step (opts : ChatWsManagerOptions) (s : SessionState) :
    NetEvent → SessionState × List Action
  | NetEvent.opened =>
      ({ s with wsState := WsState.opened },
       [Action.cb CbEvent.onConnect, Action.send (SendAction.auth opts.authToken)])
  | NetEvent.msg now f => handleMessage opts now s f
  | NetEvent.raw _ err data => handleError s (some (invalidJsonReason err data))
  | NetEvent.errored => handleError s (some "WebSocket connection error")
  | NetEvent.closedEv => ({ s with timerArmed := false, wsState := WsState.closed }, [])
  | NetEvent.callClose => closeFn s
  | NetEvent.timerFire => if s.timerArmed then closeFn s else (s, [])

/-- Process a list of transport events in arrival order, accumulating the
trace of observable actions. -/
def runFrom (opts : ChatWsManagerOptions) :
    SessionState → List NetEvent → SessionState × List Action
  | s, [] => (s, [])
  | s, e :: rest =>
      let p := step opts s e
      let q := runFrom opts p.1 rest
      (q.1, p.2 ++ q.2)

/-- State right after the constructor ran: empty answer accumulator, not
authenticated, no chat id, idle timer armed at time 0, socket connecting. -/
def initState : SessionState :=
  { answer := some "", isAuthenticated := false, currentChatId := none,
    voiceEnabled := false, timerArmed := true, lastArm := 0,
    wsState := WsState.connecting }

/-- State of a session whose socket opened and whose auth_success arrived at
time 0: the point from which the server streams chat frames. -/
def readyS : SessionState :=
  { answer := some "", isAuthenticated := true, currentChatId := none,
    voiceEnabled := false, timerArmed := true, lastArm := 0,
    wsState := WsState.opened }

/-- readyS is exactly the state reached from construction by the open
notification followed by an auth_success frame. -/
theorem readyS_reachable (opts : ChatWsManagerOptions) :
    (runFrom opts initState
      [NetEvent.opened, NetEvent.msg 0 { type := some "auth_success" }]).1 = readyS := rfl

/-! Trace projections: the observations the testable properties speak about. -/

/-- Callback invocations of a trace. -/
def cbs (as : List Action) : List CbEvent :=
  as.filterMap fun x => match x with
    | Action.cb e => some e
    | _ => none

/-- Chat request frames transmitted in a trace. -/
def chatSends (as : List Action) : List SendAction :=
  as.filterMap fun x => match x with
    | Action.send (SendAction.chat m v i c) => some (SendAction.chat m v i c)
    | _ => none

/-- Arguments of the setAnswer invocations of a trace, in order. -/
def setAnswerCalls (as : List Action) : List (Option String) :=
  as.filterMap fun x => match x with
    | Action.cb (CbEvent.setAnswer v) => some v
    | _ => none

/-- Argument tuples of the onChatComplete invocations of a trace. -/
def chatCompleteCalls (as : List Action) :
    List (Option String × String × Option String × Bool × Bool) :=
  as.filterMap fun x => match x with
    | Action.cb (CbEvent.onChatComplete c m fr v i) => some (c, m, fr, v, i)
    | _ => none

/-- Whether an action is a terminal callback: onChatComplete or onError. -/
def isTerminalCb : Action → Bool
  | Action.cb (CbEvent.onChatComplete _ _ _ _ _) => true
  | Action.cb (CbEvent.onError _) => true
  | _ => false

/-- Combined number of onChatComplete and onError invocations in a trace. -/
def terminalCbCount (as : List Action) : Nat := (as.filter isTerminalCb).length

/-- Graceful transport closes issued in a trace. -/
def closeCalls (as : List Action) : List Action :=
  as.filter fun x => match x with
    | Action.closeTransport _ _ => true
    | _ => false

/-- Whether _handleMessage routes this frame into a terminal branch:
exactly the chat_complete, legacy complete, typed error and legacy
bare-error branches invoke a terminal callback and clear the timer after
the initial re-arm. -/
def terminalFrame (f : Frame) : Bool :=
  match frameKind f with
  | FrameKind.chatComplete => true
  | FrameKind.complete => true
  | FrameKind.errorType => true
  | FrameKind.bareError => true
  | _ => false

/-- Whether a transport event routes into a terminal callback: a frame whose
branch ends in onChatComplete or onError, an unparsable payload, or a
socket-level error. -/
def terminalEv : NetEvent → Bool
  | NetEvent.msg _ f => terminalFrame f
  | NetEvent.raw _ _ _ => true
  | NetEvent.errored => true
  | _ => false

/-- Whether a transport event is the arrival of an auth_success frame. -/
def authEv : NetEvent → Bool
  | NetEvent.msg _ f => frameKind f = FrameKind.authSuccess
  | _ => false

/-! Per-branch facts about _handleMessage, proved by case analysis on the
dispatch.  These are the building blocks of the run-level theorems. -/

theorem runFrom_append (opts : ChatWsManagerOptions) (s : SessionState)
    (xs ys : List NetEvent) :
    runFrom opts s (xs ++ ys) =
      ((runFrom opts (runFrom opts s xs).1 ys).1,
        (runFrom opts s xs).2 ++ (runFrom opts (runFrom opts s xs).1 ys).2) := by
  induction xs generalizing s with
  | nil => simp [runFrom]
  | cons e rest ih => simp [runFrom, ih, List.append_assoc]

theorem handleMessage_wsState (opts : ChatWsManagerOptions) (now : Nat)
    (s : SessionState) (f : Frame) :
    (handleMessage opts now s f).1.wsState = s.wsState := by
  cases hk : frameKind f <;>
    simp [handleMessage, hk, handleError] <;>
    repeat' split <;> simp

theorem handleMessage_lastArm (opts : ChatWsManagerOptions) (now : Nat)
    (s : SessionState) (f : Frame) :
    (handleMessage opts now s f).1.lastArm = now := by
  cases hk : frameKind f <;>
    simp [handleMessage, hk, handleError] <;>
    repeat' split <;> simp

theorem handleMessage_timerArmed (opts : ChatWsManagerOptions) (now : Nat)
    (s : SessionState) (f : Frame) :
    (handleMessage opts now s f).1.timerArmed = !terminalFrame f := by
  cases hk : frameKind f <;>
    simp [handleMessage, terminalFrame, hk, handleError] <;>
    repeat' split <;> simp

theorem handleMessage_closeCalls (opts : ChatWsManagerOptions) (now : Nat)
    (s : SessionState) (f : Frame) :
    closeCalls (handleMessage opts now s f).2 = [] := by
  cases hk : frameKind f <;>
    simp [handleMessage, hk, handleError, closeCalls] <;>
    repeat' split <;> simp [closeCalls]

theorem handleMessage_terminalCount (opts : ChatWsManagerOptions) (now : Nat)
    (s : SessionState) (f : Frame) :
    terminalCbCount (handleMessage opts now s f).2 =
      if terminalFrame f then 1 else 0 := by
  cases hk : frameKind f <;>
    simp [handleMessage, terminalFrame, hk, handleError, terminalCbCount, isTerminalCb] <;>
    repeat' split <;> simp [terminalCbCount, isTerminalCb]

theorem handleMessage_chatSends (opts : ChatWsManagerOptions) (now : Nat)
    (s : SessionState) (f : Frame) :
    chatSends (handleMessage opts now s f).2 =
      if frameKind f = FrameKind.authSuccess then [sendChatPayload opts] else [] := by
  cases hk : frameKind f <;>
    simp [handleMessage, hk, handleError, chatSends, sendChatPayload] <;>
    repeat' split <;> simp [chatSends]

theorem chatSends_append (as bs : List Action) :
    chatSends (as ++ bs) = chatSends as ++ chatSends bs := by
  simp [chatSends, List.filterMap_append]

theorem terminalCbCount_append (as bs : List Action) :
    terminalCbCount (as ++ bs) = terminalCbCount as + terminalCbCount bs := by
  simp [terminalCbCount, List.filter_append]

theorem step_chatSends (opts : ChatWsManagerOptions) (s : SessionState) (e : NetEvent) :
    chatSends (step opts s e).2 = if authEv e then [sendChatPayload opts] else [] := by
  cases e with
  | opened => simp [step, authEv, chatSends]
  | msg now f =>
      by_cases h : frameKind f = FrameKind.authSuccess <;>
        simp [step, handleMessage_chatSends, authEv, h]
  | raw t err data => simp [step, authEv, chatSends, handleError]
  | errored => simp [step, authEv, chatSends, handleError]
  | closedEv => simp [step, authEv, chatSends]
  | callClose =>
      rcases s with ⟨a, au, c, v, t, l, w⟩
      cases w <;> simp [step, authEv, closeFn, chatSends]
  | timerFire =>
      rcases s with ⟨a, au, c, v, t, l, w⟩
      cases t <;> cases w <;> simp [step, authEv, closeFn, chatSends]

theorem step_terminalCount (opts : ChatWsManagerOptions) (s : SessionState) (e : NetEvent) :
    terminalCbCount (step opts s e).2 = if terminalEv e then 1 else 0 := by
  cases e with
  | opened => simp [step, terminalEv, terminalCbCount, isTerminalCb]
  | msg now f =>
      by_cases h : terminalFrame f = true <;>
        simp [step, handleMessage_terminalCount, terminalEv, h]
  | raw t err data => simp [step, terminalEv, handleError, terminalCbCount, isTerminalCb]
  | errored => simp [step, terminalEv, handleError, terminalCbCount, isTerminalCb]
  | closedEv => simp [step, terminalEv, terminalCbCount]
  | callClose =>
      rcases s with ⟨a, au, c, v, t, l, w⟩
      cases w <;> simp [step, terminalEv, closeFn, terminalCbCount, isTerminalCb]
  | timerFire =>
      rcases s with ⟨a, au, c, v, t, l, w⟩
      cases t <;> cases w <;>
        simp [step, terminalEv, closeFn, terminalCbCount, isTerminalCb]

theorem runFrom_chatSends (opts : ChatWsManagerOptions) (evs : List NetEvent) :
    ∀ s : SessionState, chatSends (runFrom opts s evs).2 =
      (evs.filter authEv).map (fun _ => sendChatPayload opts) := by
  induction evs with
  | nil => intro s; simp [runFrom, chatSends]
  | cons e rest ih =>
      intro s
      simp only [runFrom]
      rw [chatSends_append, step_chatSends, ih, List.filter_cons]
      by_cases h : authEv e = true <;> simp [h]

theorem runFrom_terminalCount (opts : ChatWsManagerOptions) (evs : List NetEvent) :
    ∀ s : SessionState,
      terminalCbCount (runFrom opts s evs).2 = evs.countP terminalEv := by
  induction evs with
  | nil => intro s; simp [runFrom, terminalCbCount]
  | cons e rest ih =>
      intro s
      simp only [runFrom]
      rw [terminalCbCount_append, step_terminalCount, ih, List.countP_cons]
      by_cases h : terminalEv e = true <;> simp [h, Nat.add_comm]

/-! Concrete sample inputs used by counterexamples and witnesses. -/

/-- Sample constructor options: question Hi, bearer token tok, defaults. -/
def optsEx : ChatWsManagerOptions := { question := "Hi", authToken := "tok" }

/-- Sample auth_success frame. -/
def authF : Frame := { type := some "auth_success" }

/-- Sample chat_complete frame. -/
def ccF : Frame := { type := some "chat_complete", chat_id := some "c1" }

/-- Sample frame of an unrecognized type (logged and otherwise ignored). -/
def pingF : Frame := { type := some "ping" }

/-! Claim C1. -/

/-- C1 counterexample: the claim that onChatComplete and onError are
together invoked at most once per session over every inbound frame sequence
is false.  A full session (open, auth_success, then two chat_complete
frames — the second arriving inside the roughly one-second window before
the deferred auto-close runs) invokes onChatComplete twice: the
chat_complete branch has no already-completed guard. -/
theorem c1_counterexample :
    terminalCbCount (runFrom optsEx initState
      [NetEvent.opened, NetEvent.msg 0 authF,
       NetEvent.msg 1 ccF, NetEvent.msg 2 ccF]).2 = 2 := by decide

/-- C1 (amended): over any session lifetime, the combined number of
onChatComplete and onError invocations equals the number of
terminal-triggering inbound events processed (chat_complete, legacy
complete, error-typed or bare-error frames, unparsable payloads, transport
errors).  In particular it is at most one combined exactly when at most one
such event is delivered; the code does not suppress a second terminal
callback on a duplicated or late terminal frame. -/
theorem c1_terminal_count (opts : ChatWsManagerOptions) (s : SessionState)
    (evs : List NetEvent) :
    terminalCbCount (runFrom opts s evs).2 = evs.countP terminalEv :=
  runFrom_terminalCount opts evs s

/-! Claim C3. -/

/-- C3: the chat request frame is transmitted only after an auth_success
frame has been received: a run containing no auth_success event transmits
no chat frame, and every chat frame ever transmitted carries the question,
the defaulted enable_voice and enable_image flags, and chat_id exactly when
a (truthy) prior chat id was supplied in the options. -/
theorem c3_auth_before_chat (opts : ChatWsManagerOptions) :
    (∀ evs : List NetEvent, (∀ e ∈ evs, authEv e = false) →
        chatSends (runFrom opts initState evs).2 = [])
    ∧ ∀ (evs : List NetEvent) (c : SendAction),
        c ∈ chatSends (runFrom opts initState evs).2 → c = sendChatPayload opts := by
  constructor
  · intro evs h
    rw [runFrom_chatSends]
    have hf : evs.filter authEv = [] := by
      rw [List.filter_eq_nil]
      intro e he
      simp [h e he]
    rw [hf]
    rfl
  · intro evs c hc
    rw [runFrom_chatSends] at hc
    rcases List.mem_map.mp hc with ⟨e, _, he⟩
    exact he.symm

/-- C3 witness: a session seeing only the open event and a non-auth frame
sends no chat frame, and the chat frame a fully authenticated sample run
does send is exactly the expected payload for the sample options. -/
theorem c3_witness :
    chatSends (runFrom optsEx initState [NetEvent.opened, NetEvent.msg 0 pingF]).2 = []
    ∧ SendAction.chat "Hi" false false none = sendChatPayload optsEx :=
  ⟨(c3_auth_before_chat optsEx).1 [NetEvent.opened, NetEvent.msg 0 pingF] (by decide),
   (c3_auth_before_chat optsEx).2 [NetEvent.opened, NetEvent.msg 0 authF]
     (SendAction.chat "Hi" false false none) (by decide)⟩

/-! Claim C6. -/

/-- C6: close() is idempotent.  From any session state, a second close()
leaves the state of the first close unchanged and performs no action at
all; the one close() issues the graceful transport close exactly when the
socket is OPEN or CONNECTING (hence at most once across repeated calls,
including a close() after the post-chat_complete auto-close, which is
itself a closeFn application); and close() never invokes a callback. -/
theorem c6_close_idempotent (s : SessionState) :
    closeFn (closeFn s).1 = ((closeFn s).1, [])
    ∧ (closeFn s).2 = (if s.wsState = WsState.opened ∨ s.wsState = WsState.connecting
        then [Action.closeTransport 1000 "Manual close"] else [])
    ∧ cbs (closeFn s).2 = [] := by
  rcases s with ⟨a, au, c, v, t, l, w⟩
  cases w <;> simp [closeFn, cbs]

/-! Claim C7. -/

/-- C7 counterexample: the claim that the idle timer stays disarmed forever
once a completion was processed is false.  After a chat_complete the timer
is disarmed, but a later inbound frame (here an unrecognized ping arriving
before the deferred close) re-arms it, because _handleMessage calls
_resetTimeout on every message before dispatching. -/
theorem c7_counterexample :
    (runFrom optsEx readyS [NetEvent.msg 0 ccF]).1.timerArmed = false
    ∧ (runFrom optsEx readyS
        [NetEvent.msg 0 ccF, NetEvent.msg 500 pingF]).1.timerArmed = true := by decide

/-- C7 (amended): processing a completion or error event leaves the idle
timer disarmed, but the disarm is not permanent: processing any inbound
frame first re-arms the timer, so after any frame the timer is armed if and
only if that frame itself is not a completion or error frame. -/
theorem c7_timer_disarm_rearm (opts : ChatWsManagerOptions) (now : Nat)
    (s : SessionState) (f : Frame) :
    (handleMessage opts now s f).1.timerArmed = !terminalFrame f :=
  handleMessage_timerArmed opts now s f

/-! Scripted server frames for the two protocols, and what _handleMessage
does with each of them (specialisations of the dispatch). -/

/-- Legacy stream_start frame, no fields. -/
def streamStartF : Frame := { type := some "stream_start" }

/-- Legacy chunk frame carrying one content fragment. -/
def chunkF (c : String) : Frame := { type := some "chunk", content := some c }

/-- Legacy complete frame carrying (or omitting) the full response. -/
def completeF (fr : Option String) : Frame :=
  { type := some "complete", full_response := fr }

/-- Phased chat_start frame carrying a chat id. -/
def chatStartF (cid : Option String) : Frame :=
  { type := some "chat_start", chat_id := cid }

/-- Phased text_complete frame carrying the full response. -/
def textCompleteF (cid fr : Option String) : Frame :=
  { type := some "text_complete", chat_id := cid, full_response := fr }

/-- Phased chat_complete frame with optional message id and an (ignored)
full_response field. -/
def chatCompleteF (cid mid fr : Option String) : Frame :=
  { type := some "chat_complete", chat_id := cid, message_id := mid, full_response := fr }

theorem handleMessage_streamStartF (opts : ChatWsManagerOptions) (now : Nat)
    (s : SessionState) :
    handleMessage opts now s streamStartF =
      ({ s with
          currentChatId := some (jsOrStr s.currentChatId "unknown")
          timerArmed := true
          lastArm := now },
       [Action.cb (CbEvent.onChatStart (some (jsOrStr s.currentChatId "unknown"))
          (some (genMsgId now)) false false)]) := rfl

theorem handleMessage_chunkF (opts : ChatWsManagerOptions) (now : Nat)
    (s : SessionState) (c : String) :
    handleMessage opts now s (chunkF c) =
      ({ s with answer := some (jsStr s.answer ++ c), timerArmed := true, lastArm := now },
       [Action.cb (CbEvent.setAnswer (some (jsStr s.answer ++ c)))]) := rfl

theorem handleMessage_completeF (opts : ChatWsManagerOptions) (now : Nat)
    (s : SessionState) (fr : Option String) :
    handleMessage opts now s (completeF fr) =
      ((if jsTruthyStr fr
          then { s with answer := fr, timerArmed := false, lastArm := now }
          else { s with timerArmed := false, lastArm := now }),
       (if jsTruthyStr fr then [Action.cb (CbEvent.setAnswer fr)] else []) ++
         [Action.cb (CbEvent.onChatComplete (some (jsOrStr s.currentChatId "unknown"))
            (genMsgId now) fr false false)]) := by
  have hk : frameKind (completeF fr) = FrameKind.complete := rfl
  simp only [handleMessage, hk]
  cases hb : jsTruthyStr fr <;> simp [completeF, hb, jsOrStr, genMsgId]

theorem handleMessage_chatStartF (opts : ChatWsManagerOptions) (now : Nat)
    (s : SessionState) (cid : Option String) :
    handleMessage opts now s (chatStartF cid) =
      ({ s with
          currentChatId := cid
          voiceEnabled := false
          answer := some ""
          timerArmed := true
          lastArm := now },
       [Action.cb (CbEvent.onChatStart cid none false false)]) := rfl

theorem handleMessage_textCompleteF (opts : ChatWsManagerOptions) (now : Nat)
    (s : SessionState) (cid fr : Option String) :
    handleMessage opts now s (textCompleteF cid fr) =
      ({ s with answer := fr, timerArmed := true, lastArm := now },
       [Action.cb (CbEvent.setAnswer fr),
        Action.cb (CbEvent.onTextComplete cid fr)]) := rfl

theorem handleMessage_chatCompleteF (opts : ChatWsManagerOptions) (now : Nat)
    (s : SessionState) (cid mid fr : Option String) :
    handleMessage opts now s (chatCompleteF cid mid fr) =
      ({ s with timerArmed := false, lastArm := now },
       [Action.cb (CbEvent.onChatComplete cid (jsOrStr mid (genMsgId now))
          s.answer false false)]) := rfl

/-! Projection calculations for traces built from these frames. -/

theorem setAnswerCalls_append (as bs : List Action) :
    setAnswerCalls (as ++ bs) = setAnswerCalls as ++ setAnswerCalls bs := by
  simp [setAnswerCalls, List.filterMap_append]

theorem chatCompleteCalls_append (as bs : List Action) :
    chatCompleteCalls (as ++ bs) = chatCompleteCalls as ++ chatCompleteCalls bs := by
  simp [chatCompleteCalls, List.filterMap_append]

theorem setAnswerCalls_ofSets (l : List String) :
    setAnswerCalls (l.map fun v => Action.cb (CbEvent.setAnswer (some v))) =
      l.map some := by
  induction l with
  | nil => rfl
  | cons c rest ih => simpa [setAnswerCalls, List.filterMap_cons] using ih

theorem chatCompleteCalls_ofSets (l : List String) :
    chatCompleteCalls (l.map fun v => Action.cb (CbEvent.setAnswer (some v))) = [] := by
  induction l with
  | nil => rfl
  | cons c rest ih => simpa [chatCompleteCalls, List.filterMap_cons] using ih

/-- The cumulative concatenations a legacy chunk sequence produces on top of
an already-accumulated prefix: acc++c1, acc++c1++c2, and so on. -/
def accum (acc : String) : List String → List String
  | [] => []
  | c :: rest => (acc ++ c) :: accum (acc ++ c) rest

/-- Trace of a legacy tail: a chunk sequence followed by one complete frame.
Each chunk appends to the accumulator and pushes it via setAnswer; the
complete frame pushes full_response via setAnswer only when it is truthy
(non-empty), and always invokes onChatComplete with full_response, the
||-resolved chat id and the supplied-or-generated message id. -/
theorem legacy_run (opts : ChatWsManagerOptions) (cs : List String) :
    ∀ (s : SessionState) (acc : String), s.answer = some acc →
    ∀ (fr : Option String) (tc : Nat),
    (runFrom opts s (cs.map (fun c => NetEvent.msg 0 (chunkF c)) ++
        [NetEvent.msg tc (completeF fr)])).2
      = (accum acc cs).map (fun v => Action.cb (CbEvent.setAnswer (some v)))
        ++ (if jsTruthyStr fr then [Action.cb (CbEvent.setAnswer fr)] else [])
        ++ [Action.cb (CbEvent.onChatComplete (some (jsOrStr s.currentChatId "unknown"))
             (genMsgId tc) fr false false)] := by
  induction cs with
  | nil =>
      intro s acc ha fr tc
      simp only [List.map_nil, List.nil_append, runFrom, step]
      rw [handleMessage_completeF]
      simp [accum]
  | cons c rest ih =>
      intro s acc ha fr tc
      simp only [List.map_cons, List.cons_append, runFrom, step]
      rw [handleMessage_chunkF, ha]
      have ih2 := ih { s with answer := some (jsStr (some acc) ++ c), timerArmed := true, lastArm := 0 } (jsStr (some acc) ++ c) rfl fr tc
      simp only [jsStr] at ih2
      simp [ih2, accum, jsStr]

theorem setAnswerCalls_cons_cb (e : CbEvent) (l : List Action) :
    setAnswerCalls (Action.cb e :: l) =
      (match e with | CbEvent.setAnswer v => [v] | _ => []) ++ setAnswerCalls l := by
  cases e <;> simp [setAnswerCalls, List.filterMap_cons]

theorem chatCompleteCalls_cons_cb (e : CbEvent) (l : List Action) :
    chatCompleteCalls (Action.cb e :: l) =
      (match e with
       | CbEvent.onChatComplete c m fr v i => [(c, m, fr, v, i)]
       | _ => []) ++ chatCompleteCalls l := by
  cases e <;> simp [chatCompleteCalls, List.filterMap_cons]

/-- Full trace of a scripted legacy session tail from the ready state:
stream_start, then chunks, then complete with full response T. -/
theorem legacy_trace (opts : ChatWsManagerOptions) (cs : List String) (T : String) (tc : Nat) :
    (runFrom opts readyS (NetEvent.msg 0 streamStartF ::
        (cs.map (fun c => NetEvent.msg 0 (chunkF c)) ++ [NetEvent.msg tc (completeF (some T))]))).2
      = Action.cb (CbEvent.onChatStart (some "unknown") (some (genMsgId 0)) false false)
        :: ((accum "" cs).map (fun v => Action.cb (CbEvent.setAnswer (some v)))
          ++ ((if jsTruthyStr (some T) then [Action.cb (CbEvent.setAnswer (some T))] else [])
          ++ [Action.cb (CbEvent.onChatComplete (some "unknown") (genMsgId tc)
               (some T) false false)])) := by
  have h2 : (runFrom opts { readyS with currentChatId := some "unknown" }
        (cs.map (fun c => NetEvent.msg 0 (chunkF c)) ++ [NetEvent.msg tc (completeF (some T))])).2
      = (accum "" cs).map (fun v => Action.cb (CbEvent.setAnswer (some v)))
        ++ (if jsTruthyStr (some T) then [Action.cb (CbEvent.setAnswer (some T))] else [])
        ++ [Action.cb (CbEvent.onChatComplete (some "unknown") (genMsgId tc)
             (some T) false false)] :=
    legacy_run opts cs { readyS with currentChatId := some "unknown" } "" rfl (some T) tc
  simp only [runFrom]
  rw [show step opts readyS (NetEvent.msg 0 streamStartF)
      = ({ readyS with currentChatId := some "unknown" },
         [Action.cb (CbEvent.onChatStart (some "unknown") (some (genMsgId 0)) false false)])
    from rfl]
  simp [h2]

theorem setAnswerCalls_nil : setAnswerCalls [] = [] := rfl

theorem chatCompleteCalls_nil : chatCompleteCalls [] = [] := rfl

/-! Claim C8. -/

/-- C8 counterexample: the claim that a complete frame carrying
full_response always overwrites the accumulated buffer and pushes it via
setAnswer is false when full_response is the empty string: the source
guards the overwrite with a truthiness check, so after stream_start,
chunk a, complete with empty full_response, the only setAnswer call is the
chunk one, the buffer still holds a, and onChatComplete is nevertheless
invoked with the empty full_response. -/
theorem c8_counterexample :
    setAnswerCalls (runFrom optsEx readyS [NetEvent.msg 0 streamStartF,
        NetEvent.msg 0 (chunkF "a"), NetEvent.msg 3 (completeF (some ""))]).2 = [some "a"]
    ∧ (runFrom optsEx readyS [NetEvent.msg 0 streamStartF,
        NetEvent.msg 0 (chunkF "a"), NetEvent.msg 3 (completeF (some ""))]).1.answer = some "a"
    ∧ chatCompleteCalls (runFrom optsEx readyS [NetEvent.msg 0 streamStartF,
        NetEvent.msg 0 (chunkF "a"), NetEvent.msg 3 (completeF (some ""))]).2
      = [(some "unknown", genMsgId 3, some "", false, false)] := by decide

/-- C8 (amended): under the legacy protocol, after stream_start each chunk
appends its content and pushes the cumulative concatenation via setAnswer;
a subsequent complete frame overwrites the buffer and pushes it via
setAnswer only when its full_response is non-empty (the code tests JS
truthiness), and in either case invokes onChatComplete exactly once with
that full_response, the resolved chat id and the generated message id. -/
theorem c8_legacy_accumulation (opts : ChatWsManagerOptions) (cs : List String)
    (T : String) (tc : Nat) :
    setAnswerCalls (runFrom opts readyS (NetEvent.msg 0 streamStartF ::
        (cs.map (fun c => NetEvent.msg 0 (chunkF c)) ++ [NetEvent.msg tc (completeF (some T))]))).2
      = (accum "" cs).map some ++ (if T = "" then [] else [some T])
    ∧ chatCompleteCalls (runFrom opts readyS (NetEvent.msg 0 streamStartF ::
        (cs.map (fun c => NetEvent.msg 0 (chunkF c)) ++ [NetEvent.msg tc (completeF (some T))]))).2
      = [(some "unknown", genMsgId tc, some T, false, false)] := by
  rw [legacy_trace opts cs T tc]
  constructor
  · by_cases hT : T = "" <;>
      simp [hT, jsTruthyStr, setAnswerCalls_cons_cb, setAnswerCalls_append,
        setAnswerCalls_ofSets, setAnswerCalls_nil]
  · by_cases hT : T = "" <;>
      simp [hT, jsTruthyStr, chatCompleteCalls_cons_cb, chatCompleteCalls_append,
        chatCompleteCalls_ofSets, chatCompleteCalls_nil]

/-! Claim C2. -/

/-- C2: dual-protocol equivalence.  A scripted legacy session
(stream_start, N chunks, complete with full response T) and a scripted
phased session (chat_start, text_complete with full response T,
chat_complete) each invoke onChatComplete exactly once, and in both runs
the fullResponse argument is the same text T (the chat and message ids
differ as the servers assign them differently). -/
theorem c2_dual_protocol (opts : ChatWsManagerOptions) (cs : List String) (T : String) :
    chatCompleteCalls (runFrom opts readyS (NetEvent.msg 0 streamStartF ::
        (cs.map (fun c => NetEvent.msg 0 (chunkF c)) ++ [NetEvent.msg 0 (completeF (some T))]))).2
      = [(some "unknown", genMsgId 0, some T, false, false)]
    ∧ chatCompleteCalls (runFrom opts readyS [NetEvent.msg 0 (chatStartF (some "c1")),
        NetEvent.msg 0 (textCompleteF (some "c1") (some T)),
        NetEvent.msg 0 (chatCompleteF (some "c1") none none)]).2
      = [(some "c1", genMsgId 0, some T, false, false)] := by
  constructor
  · rw [legacy_trace opts cs T 0]
    by_cases hT : T = "" <;>
      simp [hT, jsTruthyStr, chatCompleteCalls_cons_cb, chatCompleteCalls_append,
        chatCompleteCalls_ofSets, chatCompleteCalls_nil]
  · have q1 : step opts readyS (NetEvent.msg 0 (chatStartF (some "c1")))
        = ({ readyS with currentChatId := some "c1" },
           [Action.cb (CbEvent.onChatStart (some "c1") none false false)]) := rfl
    have q2 : step opts { readyS with currentChatId := some "c1" }
          (NetEvent.msg 0 (textCompleteF (some "c1") (some T)))
        = ({ readyS with currentChatId := some "c1", answer := some T },
           [Action.cb (CbEvent.setAnswer (some T)),
            Action.cb (CbEvent.onTextComplete (some "c1") (some T))]) := rfl
    have q3 : step opts { readyS with currentChatId := some "c1", answer := some T }
          (NetEvent.msg 0 (chatCompleteF (some "c1") none none))
        = ({ readyS with currentChatId := some "c1", answer := some T, timerArmed := false },
           [Action.cb (CbEvent.onChatComplete (some "c1") (genMsgId 0)
              (some T) false false)]) := rfl
    simp [runFrom, q1, q2, q3, chatCompleteCalls_cons_cb, chatCompleteCalls_append,
      chatCompleteCalls_nil]

/-! Claim C5. -/

theorem strLengthPos (a : String) (h : a ≠ "") : 0 < a.length := by
  cases a with
  | mk data =>
      cases data with
      | nil => simp at h
      | cons c cs => simp [String.length]

/-- C5: a voice_complete frame with a non-empty audio payload produces
exactly one onVoiceChunk invocation carrying that payload (with the
||-defaulted format) immediately followed by exactly one onVoiceComplete
invocation; a voice_complete frame with absent or empty audio produces only
the onVoiceComplete invocation. -/
theorem c5_voice_complete (opts : ChatWsManagerOptions) (now : Nat)
    (s : SessionState) (f : Frame) (h : f.type = some "voice_complete") :
    (∀ a : String, f.audio = some a → a ≠ "" →
      (handleMessage opts now s f).2
        = [Action.cb (CbEvent.onVoiceChunk f.chat_id (some a) (jsOrStr f.format "mp3")),
           Action.cb (CbEvent.onVoiceComplete f.chat_id)])
    ∧ ((f.audio = none ∨ f.audio = some "") →
      (handleMessage opts now s f).2
        = [Action.cb (CbEvent.onVoiceComplete f.chat_id)]) := by
  have hk : frameKind f = FrameKind.voiceComplete := by
    unfold frameKind
    rw [h]
    exact rfl
  constructor
  · intro a ha hne
    simp [handleMessage, hk, ha, strLengthPos a hne]
  · rintro (ha | ha) <;> simp [handleMessage, hk, ha]

/-- C5 witness: concrete voice_complete frames, one carrying audio QUJD in
format wav, one carrying empty audio. -/
theorem c5_witness :
    (handleMessage optsEx 0 readyS
        { type := some "voice_complete", chat_id := some "c9",
          audio := some "QUJD", format := some "wav" }).2
      = [Action.cb (CbEvent.onVoiceChunk (some "c9") (some "QUJD") "wav"),
         Action.cb (CbEvent.onVoiceComplete (some "c9"))]
    ∧ (handleMessage optsEx 0 readyS
        { type := some "voice_complete", chat_id := some "c9", audio := some "" }).2
      = [Action.cb (CbEvent.onVoiceComplete (some "c9"))] :=
  ⟨((c5_voice_complete optsEx 0 readyS
      { type := some "voice_complete", chat_id := some "c9",
        audio := some "QUJD", format := some "wav" } rfl).1 "QUJD" rfl
      (by decide)).trans (by decide),
   ((c5_voice_complete optsEx 0 readyS
      { type := some "voice_complete", chat_id := some "c9", audio := some "" } rfl).2
      (Or.inr rfl)).trans (by decide)⟩

/-! Claim C9. -/

/-- C9: the three fatal paths.  An unparsable inbound payload invokes
onError exactly once with the diagnostic reason (whose text ends with, and
hence includes, the offending payload) and disarms the idle timer; an
error-typed frame takes the same onError-then-disarm path passing its error
field; a transport-level error does the same with reason WebSocket
connection error. -/
theorem c9_error_paths (opts : ChatWsManagerOptions) :
    (∀ (t : Nat) (s : SessionState) (err data : String),
      step opts s (NetEvent.raw t err data)
        = ({ s with timerArmed := false },
           [Action.cb (CbEvent.onError (some (invalidJsonReason err data)))])
      ∧ ∃ p : String, invalidJsonReason err data = p ++ data)
    ∧ (∀ (now : Nat) (s : SessionState) (f : Frame), f.type = some "error" →
      handleMessage opts now s f
        = ({ s with timerArmed := false, lastArm := now },
           [Action.cb (CbEvent.onError f.error)]))
    ∧ (∀ s : SessionState,
      step opts s NetEvent.errored
        = ({ s with timerArmed := false },
           [Action.cb (CbEvent.onError (some "WebSocket connection error"))])) := by
  refine ⟨fun t s err data => ⟨rfl, ?_⟩, fun now s f h => ?_, fun s => rfl⟩
  · exact ⟨"Invalid JSON received from WebSocket: " ++ err ++ " for message: ",
      by simp [invalidJsonReason, String.append_assoc]⟩
  · have hk : frameKind f = FrameKind.errorType := by
      unfold frameKind
      rw [h]
      exact rfl
    simp [handleMessage, hk, handleError]

/-- C9 witness: the three paths at concrete inputs. -/
theorem c9_witness :
    (step optsEx readyS (NetEvent.raw 7 "SyntaxError" "garbage")
        = ({ readyS with timerArmed := false },
           [Action.cb (CbEvent.onError (some (invalidJsonReason "SyntaxError" "garbage")))])
      ∧ ∃ p : String, invalidJsonReason "SyntaxError" "garbage" = p ++ "garbage")
    ∧ handleMessage optsEx 7 readyS { type := some "error", error := some "rate limited" }
        = ({ readyS with timerArmed := false, lastArm := 7 },
           [Action.cb (CbEvent.onError (some "rate limited"))])
    ∧ step optsEx readyS NetEvent.errored
        = ({ readyS with timerArmed := false },
           [Action.cb (CbEvent.onError (some "WebSocket connection error"))]) :=
  ⟨(c9_error_paths optsEx).1 7 readyS "SyntaxError" "garbage",
   (c9_error_paths optsEx).2.1 7 readyS
     { type := some "error", error := some "rate limited" } rfl,
   (c9_error_paths optsEx).2.2 readyS⟩

/-! Claim C10. -/

/-- Phased-protocol frames that may legally arrive between chat_start and
chat_complete: text, voice and image events. -/
def phasedMid (f : Frame) : Bool :=
  match frameKind f with
  | FrameKind.textComplete => true
  | FrameKind.voiceStart => true
  | FrameKind.voiceChunk => true
  | FrameKind.voiceComplete => true
  | FrameKind.imageStart => true
  | FrameKind.imageProgress => true
  | FrameKind.imageComplete => true
  | FrameKind.imageError => true
  | _ => false

/-- The full_response of the most recent text_complete frame of a sequence,
starting from a given buffer value. -/
def lastTextResponse : List Frame → Option String → Option String
  | [], acc => acc
  | f :: rest, acc =>
      lastTextResponse rest
        (if frameKind f = FrameKind.textComplete then f.full_response else acc)

theorem handleMessage_answer_mid (opts : ChatWsManagerOptions) (now : Nat)
    (s : SessionState) (f : Frame) (h : phasedMid f = true) :
    (handleMessage opts now s f).1.answer =
      if frameKind f = FrameKind.textComplete then f.full_response else s.answer := by
  cases hk : frameKind f <;>
    first
      | (simp [handleMessage, hk, handleError]; done)
      | simp [phasedMid, hk] at h

theorem handleMessage_ccc_mid (opts : ChatWsManagerOptions) (now : Nat)
    (s : SessionState) (f : Frame) (h : phasedMid f = true) :
    chatCompleteCalls (handleMessage opts now s f).2 = [] := by
  cases hk : frameKind f
  case voiceComplete =>
      simp only [handleMessage, hk]
      rcases f.audio with _ | a
      · simp [chatCompleteCalls_cons_cb, chatCompleteCalls_nil]
      · by_cases hl : 0 < a.length <;>
          simp [hl, chatCompleteCalls_cons_cb, chatCompleteCalls_append,
            chatCompleteCalls_nil]
  all_goals first
      | (simp [handleMessage, hk, handleError, chatCompleteCalls_cons_cb,
           chatCompleteCalls_append, chatCompleteCalls_nil]
         done)
      | simp [phasedMid, hk] at h

/-- Over a sequence of mid-phase frames, the answer buffer ends up holding
the full_response of the most recent text_complete (or its initial value),
and no onChatComplete fires. -/
theorem phased_mid_run (opts : ChatWsManagerOptions) (fs : List Frame) :
    ∀ s : SessionState, (∀ f ∈ fs, phasedMid f = true) →
      (runFrom opts s (fs.map (fun f => NetEvent.msg 0 f))).1.answer
          = lastTextResponse fs s.answer
      ∧ chatCompleteCalls (runFrom opts s (fs.map (fun f => NetEvent.msg 0 f))).2 = [] := by
  induction fs with
  | nil =>
      intro s h
      exact ⟨rfl, rfl⟩
  | cons f rest ih =>
      intro s h
      have hf : phasedMid f = true := h f (List.mem_cons_self f rest)
      have hrest : ∀ g ∈ rest, phasedMid g = true :=
        fun g hg => h g (List.mem_cons_of_mem f hg)
      obtain ⟨ih1, ih2⟩ := ih (handleMessage opts 0 s f).1 hrest
      constructor
      · show (runFrom opts (handleMessage opts 0 s f).1
            (rest.map (fun g => NetEvent.msg 0 g))).1.answer = _
        rw [ih1, lastTextResponse, handleMessage_answer_mid opts 0 s f hf]
      · show chatCompleteCalls ((handleMessage opts 0 s f).2 ++
            (runFrom opts (handleMessage opts 0 s f).1
              (rest.map (fun g => NetEvent.msg 0 g))).2) = []
        rw [chatCompleteCalls_append, ih2, handleMessage_ccc_mid opts 0 s f hf]
        rfl

/-- C10: on a chat_complete frame the fullResponse handed to onChatComplete
is the session's accumulated buffer: the full_response of the most recent
text_complete since chat_start reset it (the empty string if none arrived).
A full_response carried by the chat_complete frame itself does not appear
anywhere in the invocation, and when the frame carries no message_id the
generated msg-timestamp identifier is passed instead. -/
theorem c10_chat_complete_payload (opts : ChatWsManagerOptions) (fs : List Frame)
    (mid fr : Option String) (tc : Nat) (h : ∀ f ∈ fs, phasedMid f = true) :
    chatCompleteCalls (runFrom opts readyS
        (NetEvent.msg 0 (chatStartF (some "c1")) ::
          (fs.map (fun f => NetEvent.msg 0 f) ++
            [NetEvent.msg tc (chatCompleteF (some "c1") mid fr)]))).2
      = [(some "c1", jsOrStr mid (genMsgId tc), lastTextResponse fs (some ""), false, false)] := by
  have q1 : step opts readyS (NetEvent.msg 0 (chatStartF (some "c1")))
      = ({ readyS with currentChatId := some "c1" },
         [Action.cb (CbEvent.onChatStart (some "c1") none false false)]) := rfl
  obtain ⟨hmid1, hmid2⟩ :=
    phased_mid_run opts fs { readyS with currentChatId := some "c1" } h
  rw [show ({ readyS with currentChatId := some "c1" } : SessionState).answer = some ""
    from rfl] at hmid1
  have happ := runFrom_append opts { readyS with currentChatId := some "c1" }
    (fs.map (fun f => NetEvent.msg 0 f)) [NetEvent.msg tc (chatCompleteF (some "c1") mid fr)]
  simp only [runFrom, q1]
  rw [happ]
  simp only [runFrom, step, handleMessage_chatCompleteF, hmid1]
  simp [chatCompleteCalls_cons_cb, chatCompleteCalls_append, chatCompleteCalls_nil, hmid2]

/-- C10 witness: one text_complete carrying Hello-text, a chat_complete with
no message id but a stray full_response field that is ignored. -/
theorem c10_witness :
    chatCompleteCalls (runFrom optsEx readyS
        (NetEvent.msg 0 (chatStartF (some "c1")) ::
          ([textCompleteF (some "c1") (some "Hello!")].map (fun f => NetEvent.msg 0 f) ++
            [NetEvent.msg 7 (chatCompleteF (some "c1") none (some "ignored"))]))).2
      = [(some "c1", "msg-7", some "Hello!", false, false)] :=
  (c10_chat_complete_payload optsEx [textCompleteF (some "c1") (some "Hello!")]
    none (some "ignored") 7 (by decide)).trans (by decide)

/-! Claim C4: the timed idle-timeout model.  The pending setTimeout fires at
lastArm + D; a frame arriving earlier is processed first (and re-arms the
timer through _handleMessage), a frame arriving at or after the deadline
finds the socket already closed by the timeout handler, which simply calls
close().  After the timeout no further frames are delivered. -/

/-- Session state plus whether the idle timeout has fired. -/
structure TState where
  sess : SessionState
  timedOut : Bool
deriving DecidableEq

/-- Fire the pending idle timeout if it is armed and its deadline
lastArm + D has passed at time t.  The handler is exactly close(). -/
def fireIfDue (D t : Nat) (st : TState) : TState × List Action :=
  if st.timedOut then (st, [])
  else if st.sess.timerArmed = true ∧ st.sess.lastArm + D ≤ t then
    ({ sess := (closeFn st.sess).1, timedOut := true }, (closeFn st.sess).2)
  else (st, [])

/-- Process one timed frame: first let a due timeout fire (after which the
closed socket delivers nothing more), otherwise dispatch the frame. -/
def stepT (opts : ChatWsManagerOptions) (D : Nat) (st : TState) (tf : Nat × Frame) :
    TState × List Action :=
  let p := fireIfDue D tf.1 st
  if p.1.timedOut then p
  else
    let q := handleMessage opts tf.1 p.1.sess tf.2
    (⟨q.1, false⟩, p.2 ++ q.2)

/-- Process a list of timed frames in order. -/
def runT (opts : ChatWsManagerOptions) (D : Nat) :
    TState → List (Nat × Frame) → TState × List Action
  | st, [] => (st, [])
  | st, tf :: rest =>
      let p := stepT opts D st tf
      let q := runT opts D p.1 rest
      (q.1, p.2 ++ q.2)

/-- Timed state right after the socket opened: timer armed at time 0 by the
constructor, no timeout yet. -/
def initT : TState := ⟨{ initState with wsState := WsState.opened }, false⟩

/-- Every arrival time is at least, and strictly less than D after, the
previous arming point (construction at 0, then each preceding message). -/
def gapsOk (D : Nat) : Nat → List (Nat × Frame) → Bool
  | _, [] => true
  | prev, tf :: rest =>
      (decide (prev ≤ tf.1) && decide (tf.1 < prev + D)) && gapsOk D tf.1 rest

theorem closeCalls_append (as bs : List Action) :
    closeCalls (as ++ bs) = closeCalls as ++ closeCalls bs := by
  simp [closeCalls, List.filter_append]

theorem runT_of_timedOut (opts : ChatWsManagerOptions) (D : Nat) :
    ∀ (fs : List (Nat × Frame)) (st : TState), st.timedOut = true →
      runT opts D st fs = (st, []) := by
  intro fs
  induction fs with
  | nil => intro st h; rfl
  | cons tf rest ih =>
      intro st h
      have hstep : stepT opts D st tf = (st, []) := by
        simp [stepT, fireIfDue, h]
      simp [runT, hstep, ih st h]

theorem runT_no_fire (opts : ChatWsManagerOptions) (D : Nat) :
    ∀ (fs : List (Nat × Frame)) (st : TState) (prev : Nat),
      st.timedOut = false → st.sess.lastArm = prev → gapsOk D prev fs = true →
      (runT opts D st fs).1.timedOut = false
      ∧ closeCalls (runT opts D st fs).2 = []
      ∧ (runT opts D st fs).1.sess.wsState = st.sess.wsState := by
  intro fs
  induction fs with
  | nil => intro st prev h1 h2 h3; exact ⟨h1, rfl, rfl⟩
  | cons tf rest ih =>
      intro st prev h1 h2 h3
      obtain ⟨hg, hg3⟩ : ((prev ≤ tf.1 ∧ tf.1 < prev + D)) ∧ gapsOk D tf.1 rest = true := by
        simpa [gapsOk, Bool.and_eq_true, decide_eq_true_eq, and_assoc] using h3
      have hfire : ¬ (st.sess.timerArmed = true ∧ st.sess.lastArm + D ≤ tf.1) := by
        rintro ⟨-, hle⟩
        rw [h2] at hle
        omega
      have hstep : stepT opts D st tf
          = (⟨(handleMessage opts tf.1 st.sess tf.2).1, false⟩,
             (handleMessage opts tf.1 st.sess tf.2).2) := by
        simp [stepT, fireIfDue, h1, hfire]
      obtain ⟨ih1, ih2, ih3⟩ := ih ⟨(handleMessage opts tf.1 st.sess tf.2).1, false⟩ tf.1
        rfl (handleMessage_lastArm opts tf.1 st.sess tf.2) hg3
      refine ⟨?_, ?_, ?_⟩
      · simp [runT, hstep, ih1]
      · simp [runT, hstep, closeCalls_append, ih2,
          handleMessage_closeCalls opts tf.1 st.sess tf.2]
      · simp only [runT, hstep]
        exact ih3.trans (handleMessage_wsState opts tf.1 st.sess tf.2)

theorem runT_wsState_of_noTimeout (opts : ChatWsManagerOptions) (D : Nat) :
    ∀ (fs : List (Nat × Frame)) (st : TState), st.timedOut = false →
      (runT opts D st fs).1.timedOut = false →
      (runT opts D st fs).1.sess.wsState = st.sess.wsState := by
  intro fs
  induction fs with
  | nil => intro st h1 h2; rfl
  | cons tf rest ih =>
      intro st h1 h2
      by_cases hf : (fireIfDue D tf.1 st).1.timedOut = true
      · exfalso
        have hstep : stepT opts D st tf = fireIfDue D tf.1 st := by
          simp [stepT, hf]
        simp only [runT, hstep] at h2
        rw [runT_of_timedOut opts D rest _ hf] at h2
        rw [h2] at hf
        exact Bool.false_ne_true hf
      · have hfd : fireIfDue D tf.1 st = (st, []) := by
          by_cases hc : st.sess.timerArmed = true ∧ st.sess.lastArm + D ≤ tf.1
          · exfalso; apply hf; simp [fireIfDue, h1, hc]
          · simp [fireIfDue, h1, hc]
        have hstep : stepT opts D st tf
            = (⟨(handleMessage opts tf.1 st.sess tf.2).1, false⟩,
               (handleMessage opts tf.1 st.sess tf.2).2) := by
          simp [stepT, hfd, h1]
        simp only [runT, hstep] at h2 ⊢
        exact (ih ⟨(handleMessage opts tf.1 st.sess tf.2).1, false⟩ rfl h2).trans
          (handleMessage_wsState opts tf.1 st.sess tf.2)

/-- C4: idle-timeout discipline with timeout duration D = effTimeout opts.
Part one: if every inbound message arrives strictly less than D after the
previous arming event (construction at time 0, or the preceding message),
the timeout never fires during the run and no transport close is issued.
Part two: if after some run (with no timeout so far) the timer is armed and
no message arrives for longer than D, the pending timeout fires: the
transport is gracefully closed and the closure contributes exactly the
transport-close action, no onChatComplete and no onError. -/
theorem c4_idle_timeout (opts : ChatWsManagerOptions) :
    (∀ fs : List (Nat × Frame), gapsOk (effTimeout opts) 0 fs = true →
      (runT opts (effTimeout opts) initT fs).1.timedOut = false
      ∧ closeCalls (runT opts (effTimeout opts) initT fs).2 = [])
    ∧ (∀ (fs : List (Nat × Frame)) (tEnd : Nat),
      (runT opts (effTimeout opts) initT fs).1.timedOut = false →
      (runT opts (effTimeout opts) initT fs).1.sess.timerArmed = true →
      (runT opts (effTimeout opts) initT fs).1.sess.lastArm + effTimeout opts < tEnd →
      (fireIfDue (effTimeout opts) tEnd (runT opts (effTimeout opts) initT fs).1).1.sess.wsState
          = WsState.closing
      ∧ (fireIfDue (effTimeout opts) tEnd
          (runT opts (effTimeout opts) initT fs).1).1.timedOut = true
      ∧ (fireIfDue (effTimeout opts) tEnd (runT opts (effTimeout opts) initT fs).1).2
          = [Action.closeTransport 1000 "Manual close"]) := by
  constructor
  · intro fs hg
    obtain ⟨h1, h2, h3⟩ := runT_no_fire opts (effTimeout opts) fs initT 0 rfl rfl hg
    exact ⟨h1, h2⟩
  · intro fs tEnd h1 h2 h3
    have hws : (runT opts (effTimeout opts) initT fs).1.sess.wsState = WsState.opened :=
      (runT_wsState_of_noTimeout opts (effTimeout opts) fs initT rfl h1).trans rfl
    have hclose : closeFn (runT opts (effTimeout opts) initT fs).1.sess
        = ({ (runT opts (effTimeout opts) initT fs).1.sess with
              timerArmed := false, wsState := WsState.closing },
           [Action.closeTransport 1000 "Manual close"]) := by
      simp [closeFn, hws]
    have hcond : (runT opts (effTimeout opts) initT fs).1.sess.timerArmed = true
        ∧ (runT opts (effTimeout opts) initT fs).1.sess.lastArm + effTimeout opts ≤ tEnd :=
      ⟨h2, Nat.le_of_lt h3⟩
    simp [fireIfDue, h1, hcond, hclose]

/-- C4 witness: with the default 30000 ms timeout, one frame at time 1
keeps the session alive; an empty run followed by silence until time 30001
fires the timeout, closing the socket with only the transport-close
action. -/
theorem c4_witness :
    ((runT optsEx (effTimeout optsEx) initT [(1, pingF)]).1.timedOut = false
      ∧ closeCalls (runT optsEx (effTimeout optsEx) initT [(1, pingF)]).2 = [])
    ∧ ((fireIfDue (effTimeout optsEx) 30001
          (runT optsEx (effTimeout optsEx) initT []).1).1.sess.wsState = WsState.closing
      ∧ (fireIfDue (effTimeout optsEx) 30001
          (runT optsEx (effTimeout optsEx) initT []).1).1.timedOut = true
      ∧ (fireIfDue (effTimeout optsEx) 30001 (runT optsEx (effTimeout optsEx) initT []).1).2
          = [Action.closeTransport 1000 "Manual close"]) :=
  ⟨(c4_idle_timeout optsEx).1 [(1, pingF)] (by decide),
   (c4_idle_timeout optsEx).2 [] 30001 (by decide) (by decide) (by decide)⟩

end ChatWs
